import Mathlib

/-!
# Verification of the ioBroker mDNS plugin (`iobroker-plugin-mdns`)

Shallow embedding of the two source variants of `MdnsPlugin`
(`src/src/index.ts`, binding to `bonjour-service`, and
`src/unnamed/part_000`, binding to `@homebridge/ciao`) together with
proofs about configuration resolution, the `init` lifecycle step, and
the `destroy` lifecycle step.

JavaScript runtime values that the code inspects dynamically (native
configuration entries, thrown exception values) are modelled by the
inductive type `JSVal`; JavaScript truthiness of the optional config
fields is modelled by the `jsTruthy...` helpers.  Effectful calls into
the external mDNS library are modelled by environments whose fields
give each call's outcome (`Except JSVal Unit`: `.error e` models the
call throwing the value `e`).  The `try/catch` blocks of the source are
translated into `match`es on those outcomes.
-/

/-- A dynamically-typed JavaScript value, as far as this plugin
inspects one: native-config entries are checked with
`typeof x === 'number'`, and thrown values have their `message`
property read.  Objects are represented only by their (optional,
string-valued) `message` property, which is all the code looks at. -/
inductive JSVal where
  | jsNull
  | jsUndefined
  | num (n : Int)
  | str (s : String)
  | jsBool (b : Bool)
  | errObj (message : Option String)
deriving DecidableEq

/-- Reading `v.message` on a JavaScript value `v`.  On `null` and
`undefined` the property access itself throws a `TypeError`
(`.error`); on an object it yields the `message` property (interpolating
an absent property prints `undefined`); on primitives the property is
`undefined`. -/
def readMessage : JSVal → Except JSVal String
  | .jsNull => .error (.errObj (some "Cannot read properties of null (reading message)"))
  | .jsUndefined => .error (.errObj (some "Cannot read properties of undefined (reading message)"))
  | .errObj (some s) => .ok s
  | .errObj none => .ok "undefined"
  | .num _ => .ok "undefined"
  | .str _ => .ok "undefined"
  | .jsBool _ => .ok "undefined"

/-- `MdnsPluginConfig` (src/src/index.ts lines 31-51): all fields
optional; `none` models an absent field / `undefined`. -/
structure MdnsPluginConfig where
  enabled : Option Bool := none
  serviceType : Option String := none
  port : Option Int := none
  portKey : Option String := none
  defaultPort : Option Int := none
  serviceName : Option String := none
  txt : Option (List (String × String)) := none
deriving DecidableEq

/-- The adapter's native configuration object (`parentIoPackage.native`):
a JavaScript object mapping string keys to dynamic values. -/
def NativeConfig : Type := String → Option JSVal

/-- JavaScript truthiness of an optional number (`undefined` and `0`
are falsy). -/
def jsTruthyNum : Option Int → Bool
  | some n => n != 0
  | none => false

/-- JavaScript truthiness of an optional string (`undefined` and `""`
are falsy). -/
def jsTruthyStr : Option String → Bool
  | some s => s != ""
  | none => false

/-- JavaScript truthiness of an optional boolean. -/
def jsTruthyBool : Option Bool → Bool
  | some b => b
  | none => false

/-- `a || d` for an optional string `a`: the string itself when truthy
(present and nonempty), otherwise the default `d`. -/
def jsOrStr (o : Option String) (d : String) : String :=
  match o with
  | some s => if s = "" then d else s
  | none => d

/-- `MdnsPlugin.getPortFromConfig` (src/src/index.ts lines 152-163):
reads `this.parentIoPackage?.native[portKey]` and returns it only when
`typeof` the stored value is `number`; otherwise `undefined` (`none`).
The surrounding `try/catch` cannot fire in this model (property reads
on the optional-chained object do not throw). -/
def getPortFromConfig (parentNative : Option NativeConfig) (portKey : String) : Option Int :=
  match parentNative with
  | none => none
  | some native =>
    match native portKey with
    | some (.num n) => some n
    | _ => none

/-- Port resolution, `MdnsPlugin.init` lines 71-81 of src/src/index.ts:
```
let port = pluginConfig.port;
if (!port && pluginConfig.portKey) port = this.getPortFromConfig(pluginConfig.portKey);
if (!port && pluginConfig.defaultPort) port = pluginConfig.defaultPort;
if (!port) { warn; return; }
```
`none` models the aborting (`!port`) case. -/
def resolvePort (cfg : MdnsPluginConfig) (parentNative : Option NativeConfig) : Option Int :=
  let port0 := cfg.port
  let port1 :=
    if !jsTruthyNum port0 && jsTruthyStr cfg.portKey then
      getPortFromConfig parentNative (cfg.portKey.getD "")
    else port0
  let port2 :=
    if !jsTruthyNum port1 && jsTruthyNum cfg.defaultPort then
      cfg.defaultPort
    else port1
  if jsTruthyNum port2 then port2 else none

/-- The characters of the literal part `system.adapter.` of the regex
`/system\.adapter\.([^.]+)\./` in `MdnsPlugin.getAdapterName`. -/
def adapterPat : List Char := "system.adapter.".data

/-- Strips `p` from the front of `l`; `none` when `l` does not start
with `p`. -/
def stripPat : List Char → List Char → Option (List Char)
  | [], l => some l
  | _ :: _, [] => none
  | p :: ps, c :: cs => if p = c then stripPat ps cs else none

/-- A match attempt of `/system\.adapter\.([^.]+)\./` anchored at the
start of `l`: after the literal `system.adapter.` the greedy `[^.]+`
takes a maximal nonempty run of non-dot characters, which must be
followed by a literal `.`; returns the capture group.  The remainder
after the run is nonempty exactly when the run is followed by a `.`
(the `dropWhile` can only stop at a dot). -/
def matchAdapterAt (l : List Char) : Option (List Char) :=
  match stripPat adapterPat l with
  | none => none
  | some rest =>
    let tok := rest.takeWhile (fun c => c != '.')
    if tok.isEmpty then none
    else if (rest.dropWhile (fun c => c != '.')).isEmpty then none
    else some tok

/-- `String.prototype.match` with the unanchored regex: search for the
first (leftmost) position where `matchAdapterAt` succeeds. -/
def findAdapter : List Char → Option (List Char)
  | [] => none
  | c :: cs =>
    match matchAdapterAt (c :: cs) with
    | some tok => some tok
    | none => findAdapter cs

/-- `MdnsPlugin.getAdapterName` (src/src/index.ts lines 143-147):
```
const ns = this.pluginNamespace || '';
const match = ns.match(/system\.adapter\.([^.]+)\./);
return match ? match[1] : 'unknown';
``` -/
def getAdapterName (pluginNamespace : Option String) : String :=
  let ns := pluginNamespace.getD ""
  match findAdapter ns.data with
  | some tok => ⟨tok⟩
  | none => "unknown"

/-- Lookup in a JavaScript object literal represented as an insertion
list of key-value pairs: a later binding for the same key overwrites an
earlier one, so the lookup is right-biased. -/
def recordGet : List (String × String) → String → Option String
  | [], _ => none
  | (k, v) :: rest, key =>
    match recordGet rest key with
    | some v2 => some v2
    | none => if k = key then some v else none

/-- The TXT record object built in `MdnsPlugin.init` lines 88-92 of
src/src/index.ts: `{ adapter: adapterName, hostname: hostname,
...(pluginConfig.txt || {}) }` — spread entries overwrite the base
entries on key collision. -/
def mkTxt (adapterName hostname : String) (txt : Option (List (String × String))) :
    List (String × String) :=
  [("adapter", adapterName), ("hostname", hostname)] ++ txt.getD []

/-- The service description passed to the external library:
`{ name: serviceName, type: serviceType, port: port, txt: txt }`. -/
structure AdvertiseParams where
  name : String
  type : String
  port : Int
  txt : List (String × String)
deriving DecidableEq

/-- The full service description resolved by `MdnsPlugin.init` lines
67-92 (identical in both variants), given an already-resolved port. -/
def resolvedParams (pluginNamespace : Option String) (hostname : String)
    (cfg : MdnsPluginConfig) (port : Int) : AdvertiseParams :=
  let adapterName := getAdapterName pluginNamespace
  { name := jsOrStr cfg.serviceName ("ioBroker " ++ adapterName ++ " (" ++ hostname ++ ")")
    type := jsOrStr cfg.serviceType ("iobroker-" ++ adapterName)
    port := port
    txt := mkTxt adapterName hostname cfg.txt }

/-- Severity levels of the plugin-base logger. -/
inductive LogLevel where
  | info
  | warn
  | error
  | debug
deriving DecidableEq

/-- One emitted log line. -/
structure LogLine where
  level : LogLevel
  text : String
deriving DecidableEq

/-- The two private handle fields of `MdnsPlugin`.  `responder` stands
for `this.responder` in the ciao variant and for `this.bonjour` in the
bonjour-service variant; `service` for `this.service` in both.  A
handle's identity carries no information the code uses, so a present
handle is `some ()`. -/
structure PluginState where
  responder : Option Unit
  service : Option Unit
deriving DecidableEq

/-- The state of a freshly constructed plugin: both handles `null`. -/
def initialState : PluginState := ⟨none, none⟩

/-- Outcome of one `init` call: the final handle state, the emitted log
lines in order, whether the library constructor was reached, the
service description passed to the publish/advertise attempt (if one was
made), the description of a successfully started advertisement (if
any), and the value `init` itself throws (rejects with), if any. -/
structure InitResult where
  state : PluginState
  logs : List LogLine
  constructCalled : Bool
  advertiseArgs : Option AdvertiseParams
  advertised : Option AdvertiseParams
  thrown : Option JSVal
deriving DecidableEq

/-- The info line logged on success (line 106 / 108 of the sources). -/
def publishedLine (serviceType : String) (port : Int) (serviceName : String) : String :=
  "mDNS service published: _" ++ serviceType ++ "._tcp on port " ++ toString port ++
    " as \x22" ++ serviceName ++ "\x22"

/-- The warning logged when no port resolves (line 79 of the sources). -/
def noPortLine : String :=
  "mDNS plugin: no port configured. Set \x22port\x22, \x22portKey\x22, or \x22defaultPort\x22 in plugin config."

/-- Prefix of the error line logged by the `catch` block of `init`. -/
def publishFailedText (msg : String) : String :=
  "mDNS plugin failed to publish service: " ++ msg

/-- The `catch (err) { this.log.error(...err.message...) }` block of
`init`: reading `err.message` can itself throw (for `null`/`undefined`
thrown values), in which case no log line is emitted and the new error
escapes `init`. -/
def catchPublishError (e : JSVal) : List LogLine × Option JSVal :=
  match readMessage e with
  | .ok s => ([⟨.error, publishFailedText s⟩], none)
  | .error t => ([], some t)

/-- Behaviour of the external world for one `init` call of the
bonjour-service variant: the outcome of `new BonjourService()` and of
`bonjour.publish({...})` (applied to the passed description).
`.error e` models the call throwing the value `e`. -/
structure BonjourEnv where
  newBonjour : Except JSVal Unit
  publish : AdvertiseParams → Except JSVal Unit

/-- `MdnsPlugin.init` of the bonjour-service variant
(src/src/index.ts lines 60-110). -/
def initBonjour (env : BonjourEnv) (pluginNamespace : Option String)
    (parentNative : Option NativeConfig) (hostname : String)
    (cfg : MdnsPluginConfig) : InitResult :=
  if !jsTruthyBool cfg.enabled then
    { state := initialState
      logs := [⟨.info, "mDNS plugin disabled by user"⟩]
      constructCalled := false, advertiseArgs := none, advertised := none, thrown := none }
  else
    match resolvePort cfg parentNative with
    | none =>
      { state := initialState
        logs := [⟨.warn, noPortLine⟩]
        constructCalled := false, advertiseArgs := none, advertised := none, thrown := none }
    | some port =>
      let params := resolvedParams pluginNamespace hostname cfg port
      match env.newBonjour with
      | .error e =>
        -- constructor threw: `this.bonjour` was never assigned
        { state := initialState
          logs := (catchPublishError e).1
          constructCalled := true, advertiseArgs := none, advertised := none
          thrown := (catchPublishError e).2 }
      | .ok _ =>
        match env.publish params with
        | .error e =>
          -- `this.bonjour` assigned, `this.service` assignment never ran
          { state := ⟨some (), none⟩
            logs := (catchPublishError e).1
            constructCalled := true, advertiseArgs := some params, advertised := none
            thrown := (catchPublishError e).2 }
        | .ok _ =>
          { state := ⟨some (), some ()⟩
            logs := [⟨.info, publishedLine params.type port params.name⟩]
            constructCalled := true, advertiseArgs := some params, advertised := some params
            thrown := none }

/-- Behaviour of the external world for one `init` call of the ciao
variant: outcomes of `ciao.getResponder()`, of
`responder.createService({...})`, and of `service.advertise()`. -/
structure CiaoEnv where
  getResponder : Except JSVal Unit
  createService : AdvertiseParams → Except JSVal Unit
  advertise : AdvertiseParams → Except JSVal Unit

/-- `MdnsPlugin.init` of the ciao variant
(src/unnamed/part_000 lines 60-112). -/
def initCiao (env : CiaoEnv) (pluginNamespace : Option String)
    (parentNative : Option NativeConfig) (hostname : String)
    (cfg : MdnsPluginConfig) : InitResult :=
  if !jsTruthyBool cfg.enabled then
    { state := initialState
      logs := [⟨.info, "mDNS plugin disabled by user"⟩]
      constructCalled := false, advertiseArgs := none, advertised := none, thrown := none }
  else
    match resolvePort cfg parentNative with
    | none =>
      { state := initialState
        logs := [⟨.warn, noPortLine⟩]
        constructCalled := false, advertiseArgs := none, advertised := none, thrown := none }
    | some port =>
      let params := resolvedParams pluginNamespace hostname cfg port
      match env.getResponder with
      | .error e =>
        -- `getResponder()` threw: `this.responder` never assigned
        { state := initialState
          logs := (catchPublishError e).1
          constructCalled := true, advertiseArgs := none, advertised := none
          thrown := (catchPublishError e).2 }
      | .ok _ =>
        match env.createService params with
        | .error e =>
          -- `this.responder` assigned, `this.service` never assigned
          { state := ⟨some (), none⟩
            logs := (catchPublishError e).1
            constructCalled := true, advertiseArgs := some params, advertised := none
            thrown := (catchPublishError e).2 }
        | .ok _ =>
          match env.advertise params with
          | .error e =>
            -- both handles assigned, `advertise()` rejected
            { state := ⟨some (), some ()⟩
              logs := (catchPublishError e).1
              constructCalled := true, advertiseArgs := some params, advertised := none
              thrown := (catchPublishError e).2 }
          | .ok _ =>
            { state := ⟨some (), some ()⟩
              logs := [⟨.info, publishedLine params.type port params.name⟩]
              constructCalled := true, advertiseArgs := some params, advertised := some params
              thrown := none }

/-- Outcome of one `destroy` call: final handle state, log lines, the
returned boolean, the value `destroy` throws (rejects with) if any, and
whether the service-stop and responder-shutdown operations were
attempted. -/
structure DestroyResult where
  state : PluginState
  logs : List LogLine
  returned : Bool
  thrown : Option JSVal
  stopCalled : Bool
  shutdownCalled : Bool
deriving DecidableEq

/-- Behaviour of the external world for one `destroy` call of the ciao
variant: outcomes of `service.end()` and `responder.shutdown()`. -/
structure CiaoDestroyEnv where
  endService : Except JSVal Unit
  shutdown : Except JSVal Unit

/-- `MdnsPlugin.destroy` of the ciao variant
(src/unnamed/part_000 lines 117-138).  Both `try` blocks have an empty
`catch (_)`, so the call outcomes are computed and discarded. -/
def destroyCiao (env : CiaoDestroyEnv) (st : PluginState) : DestroyResult :=
  let (serviceAfter, stopCalled) :=
    match st.service with
    | some _ =>
      let _ := env.endService
      ((none : Option Unit), true)
    | none => (none, false)
  let (responderAfter, shutdownCalled) :=
    match st.responder with
    | some _ =>
      let _ := env.shutdown
      ((none : Option Unit), true)
    | none => (none, false)
  { state := ⟨responderAfter, serviceAfter⟩
    logs := [⟨.debug, "mDNS plugin destroyed"⟩]
    returned := true
    thrown := none
    stopCalled := stopCalled
    shutdownCalled := shutdownCalled }

/-- Behaviour of the external world for one `destroy` call of the
bonjour-service variant.  `stopDefined` models the optional call
`this.service.stop?.()`: when the handle has no `stop` method, no call
is made.  `unpublishAll` and `destroyLib` are the outcomes of
`bonjour.unpublishAll()` and `bonjour.destroy()`. -/
structure BonjourDestroyEnv where
  stopDefined : Bool
  stopService : Except JSVal Unit
  unpublishAll : Except JSVal Unit
  destroyLib : Except JSVal Unit

/-- `MdnsPlugin.destroy` of the bonjour-service variant
(src/src/index.ts lines 115-137).  `bonjour.destroy()` runs only when
`bonjour.unpublishAll()` did not throw (same `try` block); both blocks
swallow every outcome. -/
def destroyBonjour (env : BonjourDestroyEnv) (st : PluginState) : DestroyResult :=
  let (serviceAfter, stopCalled) :=
    match st.service with
    | some _ =>
      if env.stopDefined then
        let _ := env.stopService
        ((none : Option Unit), true)
      else ((none : Option Unit), false)
    | none => (none, false)
  let (responderAfter, shutdownCalled) :=
    match st.responder with
    | some _ =>
      let _ :=
        match env.unpublishAll with
        | .ok _ => env.destroyLib
        | .error _ => Except.ok ()
      ((none : Option Unit), true)
    | none => (none, false)
  { state := ⟨responderAfter, serviceAfter⟩
    logs := [⟨.debug, "mDNS plugin destroyed"⟩]
    returned := true
    thrown := none
    stopCalled := stopCalled
    shutdownCalled := shutdownCalled }

/-- The namespace string `ns` contains an occurrence of the pattern
`system.adapter.<token>.` with a nonempty, dot-free token — exactly the
strings on which the regex `/system\.adapter\.([^.]+)\./` matches. -/
def hasAdapterPat (ns : String) : Prop :=
  ∃ pre tok post : String,
    ns = pre ++ "system.adapter." ++ tok ++ "." ++ post ∧ tok ≠ "" ∧ ∀ c ∈ tok.data, c ≠ '.'

/-- A thrown JavaScript value on which the `catch` block's
`err.message` read does not itself throw: anything but `null` and
`undefined`. -/
def properThrow (e : JSVal) : Prop :=
  e ≠ .jsNull ∧ e ≠ .jsUndefined

/-- Every value the bonjour-variant library calls can throw is a proper
(readable-message) value. -/
def bonjourEnvProper (env : BonjourEnv) : Prop :=
  (∀ e, env.newBonjour = .error e → properThrow e) ∧
  (∀ p e, env.publish p = .error e → properThrow e)

/-- Every value the ciao-variant library calls can throw is a proper
(readable-message) value. -/
def ciaoEnvProper (env : CiaoEnv) : Prop :=
  (∀ e, env.getResponder = .error e → properThrow e) ∧
  (∀ p e, env.createService p = .error e → properThrow e) ∧
  (∀ p e, env.advertise p = .error e → properThrow e)

/-- The first value thrown inside the `try` block of the bonjour
variant's `init`, given the service description it would publish;
`none` when the whole block succeeds. -/
def bonjourTryFailure (env : BonjourEnv) (p : AdvertiseParams) : Option JSVal :=
  match env.newBonjour with
  | .error e => some e
  | .ok _ =>
    match env.publish p with
    | .error e => some e
    | .ok _ => none

/-- The first value thrown inside the `try` block of the ciao variant's
`init`. -/
def ciaoTryFailure (env : CiaoEnv) (p : AdvertiseParams) : Option JSVal :=
  match env.getResponder with
  | .error e => some e
  | .ok _ =>
    match env.createService p with
    | .error e => some e
    | .ok _ =>
      match env.advertise p with
      | .error e => some e
      | .ok _ => none

/-- The single abstract external responder capability of the spec:
one constructor, one advertise operation, one service-stop operation
and one responder-shutdown operation. -/
structure AbstractResponderEnv where
  construct : Except JSVal Unit
  advertise : AdvertiseParams → Except JSVal Unit
  stop : Except JSVal Unit
  shutdown : Except JSVal Unit

/-- Binding of the ciao variant's calls to the abstract capability:
`getResponder` is the constructor and the `createService`/`advertise`
pair is the single abstract advertise operation (service creation
itself is pure record building and never fails abstractly). -/
def ciaoEnvOf (a : AbstractResponderEnv) : CiaoEnv :=
  { getResponder := a.construct
    createService := fun _ => Except.ok ()
    advertise := a.advertise }

/-- Binding of the bonjour variant's calls to the abstract capability:
`new BonjourService()` is the constructor and `publish` is the abstract
advertise operation. -/
def bonjourEnvOf (a : AbstractResponderEnv) : BonjourEnv :=
  { newBonjour := a.construct
    publish := a.advertise }

/-- Binding of the ciao variant's teardown calls to the abstract
capability. -/
def ciaoDestroyEnvOf (a : AbstractResponderEnv) : CiaoDestroyEnv :=
  { endService := a.stop
    shutdown := a.shutdown }

/-- Binding of the bonjour variant's teardown calls to the abstract
capability: `unpublishAll`/`destroy` together form the abstract
shutdown. -/
def bonjourDestroyEnvOf (a : AbstractResponderEnv) : BonjourDestroyEnv :=
  { stopDefined := true
    stopService := a.stop
    unpublishAll := a.shutdown
    destroyLib := Except.ok () }

/-! ### Concrete fixtures used by counterexamples and witnesses -/

/-- Native config mapping `x` to the number `9999`. -/
def natX : NativeConfig := fun k => if k = "x" then some (.num 9999) else none

/-- Native config mapping `x` to the number `0`. -/
def natX0 : NativeConfig := fun k => if k = "x" then some (.num 0) else none

/-- Enabled config with explicit port and a portKey. -/
def cfgPortBoth : MdnsPluginConfig := { enabled := some true, port := some 8089, portKey := some "x" }

/-- Enabled config with only a portKey. -/
def cfgPortKeyOnly : MdnsPluginConfig := { enabled := some true, portKey := some "x" }

/-- Enabled config with only a default port. -/
def cfgDefaultOnly : MdnsPluginConfig := { enabled := some true, defaultPort := some 7000 }

/-- Enabled config with a portKey and a default port. -/
def cfgKeyAndDefault : MdnsPluginConfig :=
  { enabled := some true, portKey := some "x", defaultPort := some 7000 }

/-- Enabled config with explicit port only. -/
def cfgPort8089 : MdnsPluginConfig := { enabled := some true, port := some 8089 }

/-- Enabled config whose `serviceType` is present but empty. -/
def cfgEmptyType : MdnsPluginConfig :=
  { enabled := some true, serviceType := some "", port := some 8089 }

/-- Enabled config with a custom `serviceType`. -/
def cfgCustomType : MdnsPluginConfig :=
  { enabled := some true, serviceType := some "custom", port := some 8089 }

/-- Enabled config whose `txt` overrides the base `adapter` entry. -/
def cfgTxtOverride : MdnsPluginConfig :=
  { enabled := some true, port := some 8089, txt := some [("adapter", "zz")] }

/-- A namespace of the documented shape. -/
def nsFoo : Option String := some "system.adapter.foo.0.plugins.mdns"

/-- Bonjour-variant environment where every library call succeeds. -/
def envBOk : BonjourEnv := { newBonjour := Except.ok (), publish := fun _ => Except.ok () }

/-- Bonjour-variant environment whose `publish` throws the value
`null`. -/
def envBNull : BonjourEnv := { newBonjour := Except.ok (), publish := fun _ => Except.error .jsNull }

/-- Abstract capability whose advertise operation throws an `Error`
with message `boom`. -/
def aBoom : AbstractResponderEnv :=
  { construct := Except.ok ()
    advertise := fun _ => Except.error (.errObj (some "boom"))
    stop := Except.ok ()
    shutdown := Except.ok () }

/-- Abstract capability where everything succeeds. -/
def aOk : AbstractResponderEnv :=
  { construct := Except.ok ()
    advertise := fun _ => Except.ok ()
    stop := Except.ok ()
    shutdown := Except.ok () }

/-! ### Helper lemmas -/

theorem stripPat_of_append (p rest : List Char) : stripPat p (p ++ rest) = some rest := by
  induction p with
  | nil => rfl
  | cons c cs ih => simp [stripPat, ih]

theorem stripPat_eq_some (p : List Char) :
    ∀ l r : List Char, stripPat p l = some r → l = p ++ r := by
  induction p with
  | nil =>
    intro l r h
    simp only [stripPat, Option.some.injEq] at h
    simp [h]
  | cons c cs ih =>
    intro l r h
    cases l with
    | nil => simp [stripPat] at h
    | cons d ds =>
      by_cases hc : c = d
      · subst hc
        simp only [stripPat, if_pos rfl] at h
        simpa using ih ds r h
      · simp [stripPat, hc] at h

theorem takeWhile_nondot_run (xs ys : List Char) (h : ∀ c ∈ xs, c ≠ '.') :
    (xs ++ '.' :: ys).takeWhile (fun c => c != '.') = xs ∧
    (xs ++ '.' :: ys).dropWhile (fun c => c != '.') = '.' :: ys := by
  induction xs with
  | nil => simp [List.takeWhile, List.dropWhile]
  | cons c t ih =>
    have hc : c ≠ '.' := h c (List.mem_cons_self c t)
    have ht : ∀ c ∈ t, c ≠ '.' := fun d hd => h d (List.mem_cons_of_mem c hd)
    have hbc : (c != '.') = true := by simpa using hc
    obtain ⟨h1, h2⟩ := ih ht
    constructor
    · simp [List.takeWhile, hbc, h1]
    · simp [List.dropWhile, hbc, h2]

theorem mem_takeWhile_pred (p : Char → Bool) (l : List Char) (c : Char)
    (h : c ∈ l.takeWhile p) : p c = true :=
  List.mem_takeWhile_imp h

theorem dropWhile_head_false (p : Char → Bool) :
    ∀ (l : List Char) (c : Char) (cs : List Char), l.dropWhile p = c :: cs → p c = false := by
  intro l
  induction l with
  | nil => intro c cs h; cases h
  | cons d t ih =>
    intro c cs h
    by_cases hp : p d
    · rw [List.dropWhile_cons_of_pos hp] at h
      exact ih c cs h
    · rw [List.dropWhile_cons_of_neg hp] at h
      injection h with h1 _
      rw [← h1]
      exact Bool.of_not_eq_true hp

theorem matchAdapterAt_of_shape (tok post : List Char) (htok : tok ≠ [])
    (hc : ∀ c ∈ tok, c ≠ '.') :
    matchAdapterAt (adapterPat ++ (tok ++ '.' :: post)) = some tok := by
  obtain ⟨h1, h2⟩ := takeWhile_nondot_run tok post hc
  have hemp : tok.isEmpty = false := by simpa [List.isEmpty_iff] using htok
  simp only [matchAdapterAt, stripPat_of_append, h1, h2, hemp]
  simp

theorem findAdapter_of_matchAt (l tok : List Char) (h : matchAdapterAt l = some tok) :
    findAdapter l = some tok := by
  cases l with
  | nil =>
    have hn : matchAdapterAt [] = none := rfl
    rw [hn] at h
    cases h
  | cons c cs => simp [findAdapter, h]

theorem matchAdapterAt_some_shape (l tok : List Char) (h : matchAdapterAt l = some tok) :
    ∃ post : List Char,
      l = adapterPat ++ tok ++ '.' :: post ∧ tok ≠ [] ∧ ∀ c ∈ tok, c ≠ '.' := by
  rw [matchAdapterAt] at h
  cases hs : stripPat adapterPat l with
  | none => rw [hs] at h; cases h
  | some rest =>
    rw [hs] at h
    simp only at h
    have hl : l = adapterPat ++ rest := stripPat_eq_some _ _ _ hs
    by_cases hemp : (rest.takeWhile (fun c => c != '.')).isEmpty
    · rw [if_pos hemp] at h; cases h
    · rw [if_neg hemp] at h
      by_cases hemp2 : (rest.dropWhile (fun c => c != '.')).isEmpty
      · rw [if_pos hemp2] at h; cases h
      · rw [if_neg hemp2] at h
        injection h with htok
        cases hd : rest.dropWhile (fun c => c != '.') with
        | nil => rw [hd] at hemp2; exact absurd rfl hemp2
        | cons d ds =>
          have hdfalse : (d != '.') = false := dropWhile_head_false _ rest d ds hd
          have hddot : d = '.' := by simpa using hdfalse
          subst hddot
          refine ⟨ds, ?_, ?_, ?_⟩
          · have hsplit : rest.takeWhile (fun c => c != '.') ++
                rest.dropWhile (fun c => c != '.') = rest :=
              List.takeWhile_append_dropWhile _ _
            rw [hd, htok] at hsplit
            rw [hl, ← hsplit]
            simp
          · intro hnil
            rw [htok, hnil] at hemp
            exact hemp rfl
          · intro a ha
            rw [← htok] at ha
            have := mem_takeWhile_pred (fun c => c != '.') rest a ha
            simpa using this

/-- Completeness of the matcher: a successful search exhibits an
occurrence of `system.adapter.<token>.` with a nonempty dot-free
token. -/
theorem findAdapter_some_shape :
    ∀ l tok : List Char, findAdapter l = some tok →
      ∃ pre post : List Char,
        l = pre ++ adapterPat ++ tok ++ '.' :: post ∧ tok ≠ [] ∧ ∀ c ∈ tok, c ≠ '.' := by
  intro l
  induction l with
  | nil => intro tok h; cases h
  | cons c cs ih =>
    intro tok h
    rw [findAdapter] at h
    cases hm : matchAdapterAt (c :: cs) with
    | some t =>
      rw [hm] at h
      injection h with ht
      subst ht
      obtain ⟨post, hp, h1, h2⟩ := matchAdapterAt_some_shape _ _ hm
      exact ⟨[], post, by simpa using hp, h1, h2⟩
    | none =>
      rw [hm] at h
      obtain ⟨pre, post, hp, h1, h2⟩ := ih tok h
      exact ⟨c :: pre, post, by simp [hp], h1, h2⟩

theorem recordGet_append (xs ys : List (String × String)) (k : String) :
    recordGet (xs ++ ys) k =
      match recordGet ys k with
      | some v => some v
      | none => recordGet xs k := by
  induction xs with
  | nil =>
    simp only [List.nil_append]
    cases recordGet ys k <;> rfl
  | cons a t ih =>
    obtain ⟨ak, av⟩ := a
    have hstep : recordGet (((ak, av) :: t) ++ ys) k =
        match recordGet (t ++ ys) k with
        | some v2 => some v2
        | none => if ak = k then some av else none := rfl
    have hstep2 : recordGet ((ak, av) :: t) k =
        match recordGet t k with
        | some v2 => some v2
        | none => if ak = k then some av else none := rfl
    rw [hstep, ih, hstep2]
    cases recordGet ys k <;> cases recordGet t k <;> rfl

theorem readMessage_of_properThrow (e : JSVal) (h : properThrow e) :
    ∃ s, readMessage e = Except.ok s := by
  obtain ⟨h1, h2⟩ := h
  cases e with
  | jsNull => exact absurd rfl h1
  | jsUndefined => exact absurd rfl h2
  | num n => exact ⟨"undefined", rfl⟩
  | str s => exact ⟨"undefined", rfl⟩
  | jsBool b => exact ⟨"undefined", rfl⟩
  | errObj m => cases m with
    | none => exact ⟨"undefined", rfl⟩
    | some s => exact ⟨s, rfl⟩

theorem catchPublishError_of_ok (e : JSVal) (s : String) (h : readMessage e = Except.ok s) :
    catchPublishError e = ([⟨.error, publishFailedText s⟩], none) := by
  simp [catchPublishError, h]

/-- Inversion for the bonjour variant's `init`: the service description
passed to `publish` is the resolved one, for the resolved port. -/
theorem initBonjour_advertiseArgs_shape (env : BonjourEnv) (ns : Option String)
    (native : Option NativeConfig) (h : String) (cfg : MdnsPluginConfig)
    (p : AdvertiseParams)
    (hp : (initBonjour env ns native h cfg).advertiseArgs = some p) :
    ∃ port, resolvePort cfg native = some port ∧ p = resolvedParams ns h cfg port := by
  unfold initBonjour at hp
  by_cases he : jsTruthyBool cfg.enabled
  · rw [if_neg (by simp [he])] at hp
    cases hr : resolvePort cfg native with
    | none => rw [hr] at hp; cases hp
    | some port =>
      refine ⟨port, rfl, ?_⟩
      simp only [hr] at hp
      cases hb : env.newBonjour with
      | error e => simp only [hb] at hp; cases hp
      | ok u =>
        simp only [hb] at hp
        cases hpub : env.publish (resolvedParams ns h cfg port) with
        | error e =>
          simp only [hpub] at hp
          exact (Option.some.inj hp).symm
        | ok v =>
          simp only [hpub] at hp
          exact (Option.some.inj hp).symm
  · rw [if_pos (by simp [he])] at hp
    cases hp

/-! ### Claim theorems -/

/-- C1, counterexample.  The claim states that when `config.port` is
falsy and `config.portKey` is set, the native value under that key is
used whenever its runtime type is numeric, and `config.defaultPort`
only otherwise.  At the concrete input below the native value under
`x` is the number `0` — numeric, so the claim resolves the port to
`0` — yet the code's truthiness test (`!port`) rejects it and resolves
`defaultPort = 7000` instead. -/
theorem mdns_C1_cex :
    getPortFromConfig (some natX0) "x" = some 0 ∧
    cfgKeyAndDefault.port = none ∧
    cfgKeyAndDefault.portKey = some "x" ∧
    cfgKeyAndDefault.defaultPort = some 7000 ∧
    resolvePort cfgKeyAndDefault (some natX0) = some 7000 := by
  decide

/-- C1, amended: the port is resolved by the strict short-circuiting
priority order — `config.port` when truthy; otherwise, when
`config.portKey` is set to a nonempty string, the native value under
that key, accepted only when its runtime type is numeric AND the value
is truthy (nonzero); otherwise `config.defaultPort` when truthy, and no
port at all otherwise.  The claim's three concrete examples hold
unchanged. -/
theorem mdns_C1_amended :
    (∀ (cfg : MdnsPluginConfig) (native : Option NativeConfig),
      (jsTruthyNum cfg.port = true → resolvePort cfg native = cfg.port) ∧
      (jsTruthyNum cfg.port = false →
        ∀ k n, cfg.portKey = some k → k ≠ "" →
          getPortFromConfig native k = some n → n ≠ 0 →
          resolvePort cfg native = some n) ∧
      (jsTruthyNum cfg.port = false →
        (jsTruthyStr cfg.portKey = false ∨
          jsTruthyNum (getPortFromConfig native (cfg.portKey.getD "")) = false) →
        jsTruthyNum cfg.defaultPort = true →
        resolvePort cfg native = cfg.defaultPort) ∧
      (jsTruthyNum cfg.port = false →
        (jsTruthyStr cfg.portKey = false ∨
          jsTruthyNum (getPortFromConfig native (cfg.portKey.getD "")) = false) →
        jsTruthyNum cfg.defaultPort = false →
        resolvePort cfg native = none)) ∧
    resolvePort cfgPortBoth (some natX) = some 8089 ∧
    resolvePort cfgPortKeyOnly (some natX) = some 9999 ∧
    resolvePort cfgDefaultOnly none = some 7000 := by
  refine ⟨?_, by decide, by decide, by decide⟩
  intro cfg native
  refine ⟨?_, ?_, ?_, ?_⟩
  · intro h
    simp [resolvePort, h]
  · intro h k n hk hkne hg hn
    have hks : jsTruthyStr cfg.portKey = true := by simp [hk, jsTruthyStr, hkne]
    have hgd : cfg.portKey.getD "" = k := by simp [hk]
    have hnn : jsTruthyNum (some n) = true := by simp [jsTruthyNum, hn]
    simp [resolvePort, h, hks, hgd, hg, hnn]
  · intro h hdisj hd
    rcases hdisj with hkf | hlf
    · simp [resolvePort, h, hkf, hd]
    · cases hks : jsTruthyStr cfg.portKey
      · simp [resolvePort, h, hks, hd]
      · simp [resolvePort, h, hks, hlf, hd]
  · intro h hdisj hd
    rcases hdisj with hkf | hlf
    · simp [resolvePort, h, hkf, hd]
    · cases hks : jsTruthyStr cfg.portKey
      · simp [resolvePort, h, hks, hd]
      · simp [resolvePort, h, hks, hlf, hd]

/-- Witness for C1 (amended): the first priority rule applied at a
concrete input. -/
theorem mdns_C1_witness : resolvePort cfgPortBoth (some natX) = cfgPortBoth.port :=
  (mdns_C1_amended.1 cfgPortBoth (some natX)).1 (by decide)

/-- C3: with `enabled` true and no resolvable port (falsy `port`,
portKey lookup yielding no numeric value, falsy `defaultPort`), `init`
aborts before publishing: exactly one warning, nothing thrown, no
handle created, no library call made. -/
theorem mdns_C3 :
    ∀ (env : BonjourEnv) (ns : Option String) (native : Option NativeConfig) (h : String)
      (cfg : MdnsPluginConfig),
      jsTruthyBool cfg.enabled = true →
      jsTruthyNum cfg.port = false →
      (∀ k, cfg.portKey = some k → getPortFromConfig native k = none) →
      jsTruthyNum cfg.defaultPort = false →
      initBonjour env ns native h cfg =
        { state := initialState, logs := [⟨.warn, noPortLine⟩], constructCalled := false,
          advertiseArgs := none, advertised := none, thrown := none } := by
  intro env ns native h cfg he hp hk hd
  have hr : resolvePort cfg native = none := by
    cases hks : jsTruthyStr cfg.portKey
    · simp [resolvePort, hp, hks, hd]
    · cases hkey : cfg.portKey with
      | none => rw [hkey] at hks; cases hks
      | some k =>
        have hg : getPortFromConfig native k = none := hk k hkey
        have hks2 : jsTruthyStr (some k) = true := by rw [← hkey]; exact hks
        have h0 : jsTruthyNum (none : Option Int) = false := rfl
        simp [resolvePort, hp, hks2, hkey, hg, hd, h0]
  simp [initBonjour, he, hr]

/-- Witness for C3 at a concrete enabled config with no port source. -/
theorem mdns_C3_witness :
    initBonjour envBOk nsFoo none "host1" { enabled := some true } =
      { state := initialState, logs := [⟨.warn, noPortLine⟩], constructCalled := false,
        advertiseArgs := none, advertised := none, thrown := none } :=
  mdns_C3 envBOk nsFoo none "host1" { enabled := some true } (by decide) (by decide)
    (fun _ hk => nomatch hk) (by decide)

/-- C9: with `enabled` false or absent, `init` performs nothing beyond
one informational log line — no constructor call, no advertise attempt,
no handle, nothing thrown — in both variants. -/
theorem mdns_C9 :
    ∀ (envB : BonjourEnv) (envC : CiaoEnv) (ns : Option String) (native : Option NativeConfig)
      (h : String) (cfg : MdnsPluginConfig),
      jsTruthyBool cfg.enabled = false →
      initBonjour envB ns native h cfg =
        { state := initialState, logs := [⟨.info, "mDNS plugin disabled by user"⟩],
          constructCalled := false, advertiseArgs := none, advertised := none, thrown := none } ∧
      initCiao envC ns native h cfg =
        { state := initialState, logs := [⟨.info, "mDNS plugin disabled by user"⟩],
          constructCalled := false, advertiseArgs := none, advertised := none, thrown := none } := by
  intro envB envC ns native h cfg he
  constructor
  · simp [initBonjour, he]
  · simp [initCiao, he]

/-- Witness for C9 at the empty (all-absent) config. -/
theorem mdns_C9_witness :
    initBonjour envBOk nsFoo none "host1" {} =
      { state := initialState, logs := [⟨.info, "mDNS plugin disabled by user"⟩],
        constructCalled := false, advertiseArgs := none, advertised := none, thrown := none } :=
  (mdns_C9 envBOk (ciaoEnvOf aOk) nsFoo none "host1" {} (by decide)).1

/-- C4: `destroy` always returns `true` and never throws, in every
state and under every library behaviour; called twice in succession the
second call finds no handles and still succeeds; called without `init`
ever having run (both handles absent) every conditional branch no-ops —
in both variants. -/
theorem mdns_C4 :
    (∀ (env : CiaoDestroyEnv) (st : PluginState),
      (destroyCiao env st).returned = true ∧ (destroyCiao env st).thrown = none) ∧
    (∀ (env : BonjourDestroyEnv) (st : PluginState),
      (destroyBonjour env st).returned = true ∧ (destroyBonjour env st).thrown = none) ∧
    (∀ (env1 env2 : CiaoDestroyEnv) (st : PluginState),
      destroyCiao env2 (destroyCiao env1 st).state =
        { state := initialState, logs := [⟨.debug, "mDNS plugin destroyed"⟩], returned := true,
          thrown := none, stopCalled := false, shutdownCalled := false }) ∧
    (∀ (env1 env2 : BonjourDestroyEnv) (st : PluginState),
      destroyBonjour env2 (destroyBonjour env1 st).state =
        { state := initialState, logs := [⟨.debug, "mDNS plugin destroyed"⟩], returned := true,
          thrown := none, stopCalled := false, shutdownCalled := false }) ∧
    (∀ env : CiaoDestroyEnv,
      destroyCiao env initialState =
        { state := initialState, logs := [⟨.debug, "mDNS plugin destroyed"⟩], returned := true,
          thrown := none, stopCalled := false, shutdownCalled := false }) ∧
    (∀ env : BonjourDestroyEnv,
      destroyBonjour env initialState =
        { state := initialState, logs := [⟨.debug, "mDNS plugin destroyed"⟩], returned := true,
          thrown := none, stopCalled := false, shutdownCalled := false }) := by
  refine ⟨?_, ?_, ?_, ?_, ?_, ?_⟩
  · intro env st
    obtain ⟨r, s⟩ := st
    cases r <;> cases s <;> exact ⟨rfl, rfl⟩
  · intro env st
    obtain ⟨sd, ss, ua, dl⟩ := env
    obtain ⟨r, s⟩ := st
    cases r <;> cases s <;> cases sd <;> exact ⟨rfl, rfl⟩
  · intro env1 env2 st
    obtain ⟨r, s⟩ := st
    cases r <;> cases s <;> rfl
  · intro env1 env2 st
    obtain ⟨sd1, ss1, ua1, dl1⟩ := env1
    obtain ⟨sd2, ss2, ua2, dl2⟩ := env2
    obtain ⟨r, s⟩ := st
    cases r <;> cases s <;> cases sd1 <;> cases sd2 <;> rfl
  · intro env
    rfl
  · intro env
    obtain ⟨sd, ss, ua, dl⟩ := env
    cases sd <;> rfl

/-- C5: even when stopping the service handle throws, the responder
shutdown is still attempted, and after teardown both handles are
cleared regardless of any call's outcome — in both variants. -/
theorem mdns_C5 :
    (∀ (e : JSVal) (sd : Except JSVal Unit),
      destroyCiao ⟨Except.error e, sd⟩ ⟨some (), some ()⟩ =
        { state := initialState, logs := [⟨.debug, "mDNS plugin destroyed"⟩], returned := true,
          thrown := none, stopCalled := true, shutdownCalled := true }) ∧
    (∀ (e : JSVal) (u d : Except JSVal Unit),
      destroyBonjour ⟨true, Except.error e, u, d⟩ ⟨some (), some ()⟩ =
        { state := initialState, logs := [⟨.debug, "mDNS plugin destroyed"⟩], returned := true,
          thrown := none, stopCalled := true, shutdownCalled := true }) ∧
    (∀ (env : CiaoDestroyEnv) (st : PluginState), (destroyCiao env st).state = initialState) ∧
    (∀ (env : BonjourDestroyEnv) (st : PluginState),
      (destroyBonjour env st).state = initialState) := by
  refine ⟨?_, ?_, ?_, ?_⟩
  · intro e sd
    rfl
  · intro e u d
    rfl
  · intro env st
    obtain ⟨r, s⟩ := st
    cases r <;> cases s <;> rfl
  · intro env st
    obtain ⟨sd, ss, ua, dl⟩ := env
    obtain ⟨r, s⟩ := st
    cases r <;> cases s <;> cases sd <;> rfl

/-- C6: the TXT record set passed to the advertise call is the two base
entries `adapter`/`hostname` overlaid with all entries of `config.txt`;
a colliding `config.txt` key overrides the base value; with `config.txt`
absent the set is exactly the two base entries. -/
theorem mdns_C6 :
    ∀ (env : BonjourEnv) (ns : Option String) (native : Option NativeConfig) (h : String)
      (cfg : MdnsPluginConfig) (p : AdvertiseParams),
      (initBonjour env ns native h cfg).advertiseArgs = some p →
      (cfg.txt = none → p.txt = [("adapter", getAdapterName ns), ("hostname", h)]) ∧
      (∀ l, cfg.txt = some l →
        p.txt = [("adapter", getAdapterName ns), ("hostname", h)] ++ l ∧
        (∀ k v, recordGet l k = some v → recordGet p.txt k = some v) ∧
        (∀ k, recordGet l k = none →
          recordGet p.txt k =
            recordGet [("adapter", getAdapterName ns), ("hostname", h)] k)) := by
  intro env ns native h cfg p hp
  obtain ⟨port, hr, hpp⟩ := initBonjour_advertiseArgs_shape env ns native h cfg p hp
  have htxt : p.txt = mkTxt (getAdapterName ns) h cfg.txt := by rw [hpp]; rfl
  constructor
  · intro hn
    rw [htxt, hn]
    rfl
  · intro l hl
    have hform : p.txt = [("adapter", getAdapterName ns), ("hostname", h)] ++ l := by
      rw [htxt, hl]
      rfl
    refine ⟨hform, ?_, ?_⟩
    · intro k v hv
      rw [hform, recordGet_append, hv]
    · intro k hk
      rw [hform, recordGet_append, hk]

/-- Witness for C6: a txt entry colliding with the base `adapter` key
overrides the base value. -/
theorem mdns_C6_witness :
    recordGet (resolvedParams nsFoo "host1" cfgTxtOverride 8089).txt "adapter" = some "zz" := by
  have hmain := mdns_C6 envBOk nsFoo none "host1" cfgTxtOverride
      (resolvedParams nsFoo "host1" cfgTxtOverride 8089) (by decide)
  exact (hmain.2 [("adapter", "zz")] rfl).2.1 "adapter" "zz" (by decide)

/-- C7: adapter-name extraction is total by construction; on a
namespace of the shape `system.adapter.<name>.<instance>.plugins.mdns`
(with a nonempty, dot-free name) it yields `<name>`; on any string not
containing the pattern `system.adapter.<token>.` it yields the literal
`unknown`; the two concrete examples of the claim hold. -/
theorem mdns_C7 :
    (∀ name inst : String, name ≠ "" → (∀ c ∈ name.data, c ≠ '.') →
      getAdapterName (some ("system.adapter." ++ name ++ "." ++ inst ++ ".plugins.mdns")) =
        name) ∧
    (∀ ns : String, ¬ hasAdapterPat ns → getAdapterName (some ns) = "unknown") ∧
    getAdapterName (some "system.adapter.foo.0.plugins.mdns") = "foo" ∧
    getAdapterName (some "garbage") = "unknown" := by
  refine ⟨?_, ?_, by decide, by decide⟩
  · intro name inst hne hnd
    have hne' : name.data ≠ [] := by
      intro hh
      apply hne
      cases name with
      | mk l =>
        simp only at hh
        rw [hh]
    have hdata : ("system.adapter." ++ name ++ "." ++ inst ++ ".plugins.mdns").data =
        adapterPat ++ (name.data ++ '.' :: (inst.data ++ ".plugins.mdns".data)) := by
      simp only [String.data_append, List.append_assoc]
      rfl
    have hfind : findAdapter
        ("system.adapter." ++ name ++ "." ++ inst ++ ".plugins.mdns").data = some name.data := by
      rw [hdata]
      exact findAdapter_of_matchAt _ _ (matchAdapterAt_of_shape name.data _ hne' hnd)
    simp only [getAdapterName, Option.getD, hfind]
  · intro ns hnp
    cases hf : findAdapter ns.data with
    | none => simp [getAdapterName, hf]
    | some tok =>
      exfalso
      apply hnp
      obtain ⟨pre, post, hdec, hne, hnd⟩ := findAdapter_some_shape ns.data tok hf
      refine ⟨⟨pre⟩, ⟨tok⟩, ⟨post⟩, ?_, ?_, ?_⟩
      · apply String.ext
        rw [hdec]
        simp [String.data_append, adapterPat]
      · intro hh
        apply hne
        have : (⟨tok⟩ : String).data = tok := rfl
        rw [hh] at this
        exact this.symm
      · intro c hc
        exact hnd c hc

/-- Witness for C7 at a concrete namespace of the documented shape. -/
theorem mdns_C7_witness :
    getAdapterName (some ("system.adapter." ++ "foo" ++ "." ++ "0" ++ ".plugins.mdns")) =
      "foo" :=
  mdns_C7.1 "foo" "0" (by decide) (by decide)

/-- C8, counterexample.  The claim reads `serviceType`/`serviceName`
as used "if present": at the concrete input below `serviceType` is
present (the empty string), yet the advertised type is the fallback
`iobroker-foo`, not the present value `""` — presence alone does not
decide; JS truthiness does. -/
theorem mdns_C8_cex :
    cfgEmptyType.serviceType = some "" ∧
    (initBonjour envBOk nsFoo none "host1" cfgEmptyType).advertiseArgs =
      some { name := "ioBroker foo (host1)", type := "iobroker-foo", port := 8089,
             txt := [("adapter", "foo"), ("hostname", "host1")] } ∧
    ("iobroker-foo" : String) ≠ "" := by
  decide

/-- C8, amended: the advertised service type is `config.serviceType`
when present and nonempty, else `iobroker-<adapterName>` (a present but
empty string falls back to the default); the advertised service name is
`config.serviceName` when present and nonempty, else
`ioBroker <adapterName> (<hostname>)`. -/
theorem mdns_C8_amended :
    ∀ (env : BonjourEnv) (ns : Option String) (native : Option NativeConfig) (h : String)
      (cfg : MdnsPluginConfig) (p : AdvertiseParams),
      (initBonjour env ns native h cfg).advertiseArgs = some p →
      (∀ s, cfg.serviceType = some s → s ≠ "" → p.type = s) ∧
      ((cfg.serviceType = none ∨ cfg.serviceType = some "") →
        p.type = "iobroker-" ++ getAdapterName ns) ∧
      (∀ s, cfg.serviceName = some s → s ≠ "" → p.name = s) ∧
      ((cfg.serviceName = none ∨ cfg.serviceName = some "") →
        p.name = "ioBroker " ++ getAdapterName ns ++ " (" ++ h ++ ")") := by
  intro env ns native h cfg p hp
  obtain ⟨port, hr, hpp⟩ := initBonjour_advertiseArgs_shape env ns native h cfg p hp
  subst hpp
  refine ⟨?_, ?_, ?_, ?_⟩
  · intro s hs hsne
    simp [resolvedParams, jsOrStr, hs, hsne]
  · intro hd
    rcases hd with hd | hd <;> simp [resolvedParams, jsOrStr, hd]
  · intro s hs hsne
    simp [resolvedParams, jsOrStr, hs, hsne]
  · intro hd
    rcases hd with hd | hd <;> simp [resolvedParams, jsOrStr, hd]

/-- Witness for C8 (amended) at a config with a nonempty custom
service type. -/
theorem mdns_C8_witness :
    (resolvedParams nsFoo "host1" cfgCustomType 8089).type = "custom" :=
  (mdns_C8_amended envBOk nsFoo none "host1" cfgCustomType
      (resolvedParams nsFoo "host1" cfgCustomType 8089) (by decide)).1 "custom" rfl (by decide)

/-- C2, counterexample.  The claim quantifies over every possible
thrown value.  When the library throws the value `null`, the `catch`
block's interpolation `err.message` itself throws a `TypeError`, so no
error line is logged and `init` re-raises instead of completing
silently. -/
theorem mdns_C2_cex :
    (initBonjour envBNull nsFoo none "host1" cfgPort8089).thrown =
      some (.errObj (some "Cannot read properties of null (reading message)")) ∧
    (initBonjour envBNull nsFoo none "host1" cfgPort8089).logs = [] := by
  decide

/-- C2, amended: for every thrown value whose `message` property can be
read (anything but `null`/`undefined`), `init` catches the error, logs
exactly one error line containing the failure's message text, starts no
advertisement, and never re-raises — in both variants.  (If `null` or
`undefined` is thrown, reading `err.message` inside the `catch` block
itself throws and that `TypeError` escapes `init`.) -/
theorem mdns_C2_amended :
    ∀ (envB : BonjourEnv) (envC : CiaoEnv) (ns : Option String) (native : Option NativeConfig)
      (h : String) (cfg : MdnsPluginConfig),
      (bonjourEnvProper envB → (initBonjour envB ns native h cfg).thrown = none) ∧
      (ciaoEnvProper envC → (initCiao envC ns native h cfg).thrown = none) ∧
      (∀ (port : Int) (e : JSVal) (s : String),
        jsTruthyBool cfg.enabled = true →
        resolvePort cfg native = some port →
        readMessage e = Except.ok s →
        (bonjourTryFailure envB (resolvedParams ns h cfg port) = some e →
          (initBonjour envB ns native h cfg).logs = [⟨.error, publishFailedText s⟩] ∧
          (initBonjour envB ns native h cfg).advertised = none ∧
          (initBonjour envB ns native h cfg).thrown = none) ∧
        (ciaoTryFailure envC (resolvedParams ns h cfg port) = some e →
          (initCiao envC ns native h cfg).logs = [⟨.error, publishFailedText s⟩] ∧
          (initCiao envC ns native h cfg).advertised = none ∧
          (initCiao envC ns native h cfg).thrown = none)) := by
  intro envB envC ns native h cfg
  refine ⟨?_, ?_, ?_⟩
  · intro hprop
    cases he : jsTruthyBool cfg.enabled
    · simp [initBonjour, he]
    · cases hr : resolvePort cfg native with
      | none => simp [initBonjour, he, hr]
      | some port =>
        cases hb : envB.newBonjour with
        | error e =>
          obtain ⟨s, hs⟩ := readMessage_of_properThrow e (hprop.1 e hb)
          simp [initBonjour, he, hr, hb, catchPublishError_of_ok e s hs]
        | ok u =>
          cases hpub : envB.publish (resolvedParams ns h cfg port) with
          | error e =>
            obtain ⟨s, hs⟩ := readMessage_of_properThrow e (hprop.2 _ e hpub)
            simp [initBonjour, he, hr, hb, hpub, catchPublishError_of_ok e s hs]
          | ok v =>
            simp [initBonjour, he, hr, hb, hpub]
  · intro hprop
    cases he : jsTruthyBool cfg.enabled
    · simp [initCiao, he]
    · cases hr : resolvePort cfg native with
      | none => simp [initCiao, he, hr]
      | some port =>
        cases hg : envC.getResponder with
        | error e =>
          obtain ⟨s, hs⟩ := readMessage_of_properThrow e (hprop.1 e hg)
          simp [initCiao, he, hr, hg, catchPublishError_of_ok e s hs]
        | ok u =>
          cases hc : envC.createService (resolvedParams ns h cfg port) with
          | error e =>
            obtain ⟨s, hs⟩ := readMessage_of_properThrow e (hprop.2.1 _ e hc)
            simp [initCiao, he, hr, hg, hc, catchPublishError_of_ok e s hs]
          | ok v =>
            cases ha : envC.advertise (resolvedParams ns h cfg port) with
            | error e =>
              obtain ⟨s, hs⟩ := readMessage_of_properThrow e (hprop.2.2 _ e ha)
              simp [initCiao, he, hr, hg, hc, ha, catchPublishError_of_ok e s hs]
            | ok w =>
              simp [initCiao, he, hr, hg, hc, ha]
  · intro port e s he hr hs
    constructor
    · intro hfail
      cases hb : envB.newBonjour with
      | error e2 =>
        have he2 : e2 = e := by
          rw [bonjourTryFailure, hb] at hfail
          exact Option.some.inj hfail
        subst he2
        simp [initBonjour, he, hr, hb, catchPublishError_of_ok e2 s hs]
      | ok u =>
        cases hpub : envB.publish (resolvedParams ns h cfg port) with
        | error e2 =>
          have he2 : e2 = e := by
            rw [bonjourTryFailure, hb, hpub] at hfail
            exact Option.some.inj hfail
          subst he2
          simp [initBonjour, he, hr, hb, hpub, catchPublishError_of_ok e2 s hs]
        | ok v =>
          rw [bonjourTryFailure, hb, hpub] at hfail
          cases hfail
    · intro hfail
      cases hg : envC.getResponder with
      | error e2 =>
        have he2 : e2 = e := by
          rw [ciaoTryFailure, hg] at hfail
          exact Option.some.inj hfail
        subst he2
        simp [initCiao, he, hr, hg, catchPublishError_of_ok e2 s hs]
      | ok u =>
        cases hc : envC.createService (resolvedParams ns h cfg port) with
        | error e2 =>
          have he2 : e2 = e := by
            rw [ciaoTryFailure, hg, hc] at hfail
            exact Option.some.inj hfail
          subst he2
          simp [initCiao, he, hr, hg, hc, catchPublishError_of_ok e2 s hs]
        | ok v =>
          cases ha : envC.advertise (resolvedParams ns h cfg port) with
          | error e2 =>
            have he2 : e2 = e := by
              rw [ciaoTryFailure, hg, hc, ha] at hfail
              exact Option.some.inj hfail
            subst he2
            simp [initCiao, he, hr, hg, hc, ha, catchPublishError_of_ok e2 s hs]
          | ok w =>
            rw [ciaoTryFailure, hg, hc, ha] at hfail
            cases hfail

/-- Witness for C2 (amended): a publish failure throwing an `Error`
with message `boom` is caught, logged, and not re-raised. -/
theorem mdns_C2_witness :
    (initBonjour (bonjourEnvOf aBoom) nsFoo none "host1" cfgPort8089).logs =
      [⟨.error, publishFailedText "boom"⟩] ∧
    (initBonjour (bonjourEnvOf aBoom) nsFoo none "host1" cfgPort8089).thrown = none := by
  have hmain := (mdns_C2_amended (bonjourEnvOf aBoom) (ciaoEnvOf aBoom) nsFoo none "host1"
      cfgPort8089).2.2 8089 (.errObj (some "boom")) "boom" (by decide) (by decide) rfl
  have hb := hmain.1 (by decide)
  exact ⟨hb.1, hb.2.2⟩

/-- C10, counterexample.  Under the single abstract capability `aBoom`
(construction succeeds, the abstract advertise operation throws
`Error("boom")`, bound to both variants by `ciaoEnvOf`/`bonjourEnvOf`),
the two variants log identically and attempt the same advertisement,
yet end in different final states: the ciao variant retains a created
service handle (`createService` succeeded before `advertise` rejected)
while the bonjour variant's service handle is never assigned
(`publish` threw before returning). -/
theorem mdns_C10_cex :
    (initCiao (ciaoEnvOf aBoom) nsFoo none "host1" cfgPort8089).logs =
      (initBonjour (bonjourEnvOf aBoom) nsFoo none "host1" cfgPort8089).logs ∧
    (initCiao (ciaoEnvOf aBoom) nsFoo none "host1" cfgPort8089).advertiseArgs =
      (initBonjour (bonjourEnvOf aBoom) nsFoo none "host1" cfgPort8089).advertiseArgs ∧
    (initCiao (ciaoEnvOf aBoom) nsFoo none "host1" cfgPort8089).state.service = some () ∧
    (initBonjour (bonjourEnvOf aBoom) nsFoo none "host1" cfgPort8089).state.service = none := by
  decide

/-- C10, amended: with the external responder modelled as one abstract
capability, the two variants produce the same resolved advertisement
parameters, the same log lines, the same advertisement attempts and
outcomes, the same thrown values and the same responder handle; their
results are fully identical (including the service handle) whenever the
abstract advertise operation does not throw; and `destroy` behaves
identically in every state.  Only when the advertise operation throws
do the final states differ, as the counterexample shows. -/
theorem mdns_C10_amended :
    ∀ (a : AbstractResponderEnv) (ns : Option String) (native : Option NativeConfig)
      (h : String) (cfg : MdnsPluginConfig) (st : PluginState),
      ((initCiao (ciaoEnvOf a) ns native h cfg).logs =
        (initBonjour (bonjourEnvOf a) ns native h cfg).logs ∧
      (initCiao (ciaoEnvOf a) ns native h cfg).advertiseArgs =
        (initBonjour (bonjourEnvOf a) ns native h cfg).advertiseArgs ∧
      (initCiao (ciaoEnvOf a) ns native h cfg).advertised =
        (initBonjour (bonjourEnvOf a) ns native h cfg).advertised ∧
      (initCiao (ciaoEnvOf a) ns native h cfg).thrown =
        (initBonjour (bonjourEnvOf a) ns native h cfg).thrown ∧
      (initCiao (ciaoEnvOf a) ns native h cfg).constructCalled =
        (initBonjour (bonjourEnvOf a) ns native h cfg).constructCalled ∧
      (initCiao (ciaoEnvOf a) ns native h cfg).state.responder =
        (initBonjour (bonjourEnvOf a) ns native h cfg).state.responder) ∧
      ((∀ p, a.advertise p = Except.ok ()) →
        initCiao (ciaoEnvOf a) ns native h cfg = initBonjour (bonjourEnvOf a) ns native h cfg) ∧
      destroyCiao (ciaoDestroyEnvOf a) st = destroyBonjour (bonjourDestroyEnvOf a) st := by
  intro a ns native h cfg st
  refine ⟨?_, ?_, ?_⟩
  · cases he : jsTruthyBool cfg.enabled
    · simp [initCiao, initBonjour, he]
    · cases hr : resolvePort cfg native with
      | none => simp [initCiao, initBonjour, he, hr]
      | some port =>
        cases hc : a.construct with
        | error e =>
          simp [initCiao, initBonjour, ciaoEnvOf, bonjourEnvOf, he, hr, hc]
        | ok u =>
          cases ha : a.advertise (resolvedParams ns h cfg port) with
          | error e =>
            simp [initCiao, initBonjour, ciaoEnvOf, bonjourEnvOf, he, hr, hc, ha]
          | ok v =>
            simp [initCiao, initBonjour, ciaoEnvOf, bonjourEnvOf, he, hr, hc, ha]
  · intro hok
    cases he : jsTruthyBool cfg.enabled
    · simp [initCiao, initBonjour, he]
    · cases hr : resolvePort cfg native with
      | none => simp [initCiao, initBonjour, he, hr]
      | some port =>
        cases hc : a.construct with
        | error e =>
          simp [initCiao, initBonjour, ciaoEnvOf, bonjourEnvOf, he, hr, hc]
        | ok u =>
          simp [initCiao, initBonjour, ciaoEnvOf, bonjourEnvOf, he, hr, hc,
            hok (resolvedParams ns h cfg port)]
  · obtain ⟨r, s⟩ := st
    cases r <;> cases s <;> rfl

/-- Witness for C10 (amended): when the abstract advertise operation
succeeds, the two variants' `init` results are fully identical. -/
theorem mdns_C10_witness :
    initCiao (ciaoEnvOf aOk) nsFoo none "host1" cfgPort8089 =
      initBonjour (bonjourEnvOf aOk) nsFoo none "host1" cfgPort8089 :=
  ((mdns_C10_amended aOk nsFoo none "host1" cfgPort8089 initialState).2.1)
    (fun _ => rfl)
